import Mathlib

/-!
Shallow embedding of the chunked-transfer core of `pyvcloud/vcd/org.py`
(`Org.upload_file`, the appliance branch of `Org.download_catalog_item`,
and `Org.upload_ovf`), together with theorems settling the frozen claims
about that code.

Conventions of the embedding:
* File contents are abstracted to byte counts; a read of the local file at
  offset `t` with request size `C` is an oracle `reads : Nat → Nat`
  giving the length of the returned buffer.  In `upload_file` the file
  position always equals `transferred`, so indexing the oracle by the
  current offset is faithful to the source.
* Network calls are oracles supplied as inputs; fallible calls return
  `Except String _`.  Loops whose termination depends on the environment
  (`while` loops in the source) take a `fuel` argument and return `none`
  when the fuel is exhausted, which models divergence.
* Python values that flow into a `!=` comparison across types are kept as
  a sum type `PyVal`, because the source compares an `int` byte count
  against an XML attribute `str` and Python's `!=` across those types is
  always `True`.
-/

/-- Python values relevant to the size check in `download_catalog_item`:
`num_bytes` is an `int`, `source_file['size']` (an lxml attribute) is a
`str`. -/
inductive PyVal where
  | pyInt (n : Int)
  | pyStr (s : String)
deriving DecidableEq

/-- Python `!=`: equal-type values compare by value; an `int` is never
equal to a `str`, so `!=` across those types is always `True`. -/
def pyNe : PyVal → PyVal → Bool
  | .pyInt a, .pyInt b => a != b
  | .pyStr a, .pyStr b => a != b
  | _, _ => true

/-- The range header built by `Org.upload_file`:
`'bytes %s-%s/%s' % (transferred, len(my_bytes) - 1, stat_info.st_size)`.
Note the second field is `len - 1`, computed in `Int` because Python's
`len(my_bytes) - 1` is `-1` for an empty read. -/
def rangeStr (transferred len size : Nat) : String :=
  "bytes " ++ toString transferred ++ "-" ++ toString ((len : Int) - 1)
    ++ "/" ++ toString size

/-- The `while transferred < stat_info.st_size` loop of `Org.upload_file`.
State: current offset `t`, list of submitted range headers `frags`
(one per `upload_fragment` call), list of values passed to the progress
callback `cbs`.  `fuel` bounds the number of iterations; `none` models a
loop that did not finish within the fuel. -/
def uploadLoop (S C : Nat) (reads : Nat → Nat) :
    Nat → Nat → List String → List Nat → Option (List String × List Nat × Nat)
  | 0, _, _, _ => none
  | fuel + 1, t, frags, cbs =>
    if t < S then
      if reads t ≤ C then
        uploadLoop S C reads fuel (t + reads t)
          (frags ++ [rangeStr t (reads t) S]) (cbs ++ [t + reads t])
      else
        uploadLoop S C reads fuel t frags cbs
    else
      some (frags, cbs, t)

/-- `Org.upload_file` for a file of size `S` and chunk size `C`:
returns the submitted range headers, the callback arguments, and the
final `transferred` value. -/
def upload_file (S C : Nat) (reads : Nat → Nat) (fuel : Nat) :
    Option (List String × List Nat × Nat) :=
  uploadLoop S C reads fuel 0 [] []

/-- A read of a regular local file: `f.read(C)` at position `t` of a file
of size `S` returns `min C (S - t)` bytes. -/
def fileRead (S C t : Nat) : Nat := min C (S - t)

/-- A read oracle is faithful to a regular file when every read of a
non-exhausted file returns at least one byte and never more than the
request size nor more than the bytes remaining. -/
def ReadsFaithful (S C : Nat) (reads : Nat → Nat) : Prop :=
  ∀ u, u < S → 1 ≤ reads u ∧ reads u ≤ min C (S - u)

/-- A manifest file entry as parsed in `org.py`:
`{'href': f.get(ns+'href'), 'name': f.get(ns+'id'), 'size': f.get(ns+'size')}`.
All three fields are XML attribute values, hence strings. -/
structure Entry where
  href : String
  name : String
  size : String
deriving DecidableEq

/-- The per-entry download loop of the appliance branch of
`Org.download_catalog_item` (the `for f in ovf_descriptor.References.File`
loop).  `download e.href` is the byte count returned by the resource
client's `download_from_uri` for that entry (an `int`).  The source then
checks `if num_bytes != source_file['size']` — an `int` against the
attribute string — and raises on mismatch; otherwise it appends the entry
to `files` and continues. -/
def processEntries (download : String → Int) :
    List Entry → Except String (List Entry)
  | [] => .ok []
  | e :: rest =>
    if pyNe (.pyInt (download e.href)) (.pyStr e.size) then
      .error ("download incomplete for file " ++ e.href)
    else
      match processEntries download rest with
      | .error msg => .error msg
      | .ok fs => .ok (e :: fs)

/-- Observable outcome of the appliance branch of
`Org.download_catalog_item`. -/
structure ApplOut where
  bytesWritten : Nat
  workspaceRemoved : Bool
  cwdRestored : Bool
  tarMembers : List String
deriving DecidableEq

/-- The appliance-template branch of `Org.download_catalog_item`
(lines 201-244): write `descriptor.ovf` into a fresh temp dir, download
every manifest entry with the size check, tar `descriptor.ovf` plus the
downloaded entries into the output path, then in the `finally` block
restore the working directory and set `bytes_written` from
`os.stat(file_name).st_size` (`archiveStat` here).  The
`shutil.rmtree(tempdir)` call is commented out in the source, so the
workspace is never removed.  On an error the original exception
propagates after the `finally` block. -/
def appliance_branch (entries : List Entry) (download : String → Int)
    (archiveStat : Nat) : Except String ApplOut :=
  match processEntries download entries with
  | .error msg => .error msg
  | .ok files =>
    .ok { bytesWritten := archiveStat
          workspaceRemoved := false
          cwdRestored := true
          tarMembers := "descriptor.ovf" :: files.map (·.href) }

/-- The `while True: time.sleep(5); entity = get(...); if
len(entity.Files.File) > 1: break` loop of `Org.upload_ovf`.
`polls i` is the number of `Files.File` entries reported by the `i`-th
poll; the loop exits at the first poll reporting more than one entry.
The source loop has no bound, so divergence is modelled by `none` when
`fuel` polls have all reported at most one entry. -/
def pollLoop (polls : Nat → Nat) : Nat → Nat → Option Nat
  | 0, _ => none
  | fuel + 1, i => if 1 < polls i then some i else pollLoop polls fuel (i + 1)

/-- The source's upload-slot poll loop never exits, whatever fuel it is
given. -/
def pollLoopDiverges (polls : Nat → Nat) : Prop :=
  ∀ fuel i, pollLoop polls fuel i = none

/-- Index of the last occurrence of `c`, if any. -/
def lastIdxOf (c : Char) : List Char → Option Nat
  | [] => none
  | x :: xs =>
    match lastIdxOf c xs with
    | some i => some (i + 1)
    | none => if x == c then some 0 else none

/-- The extension part of Python's `os.path.splitext` for a bare file
name: the suffix from the last dot, unless every character before that
dot is itself a dot (so `.ovf` as a whole file name has no extension). -/
def splitextExt (s : String) : String :=
  match lastIdxOf '.' s.data with
  | none => ""
  | some i =>
    if (s.data.take i).any (fun c => c != '.') then
      String.mk (s.data.drop i)
    else ""

/-- The descriptor search of `Org.upload_ovf`: the first listed file
whose `os.path.splitext` extension is `.ovf`. -/
def findOvf (files : List String) : Option String :=
  files.find? (fun f => splitextExt f == ".ovf")

/-- Environment of one `Org.upload_ovf` call: the outcome of each
external interaction, in source order. -/
structure OvfEnv where
  /-- Names extracted into the temp dir (`os.listdir(tempdir)`). -/
  archiveFiles : List String
  /-- Outcome of `tarfile.open` / `extractall`. -/
  extractOk : Except String Unit
  /-- `os.stat(ovf_file).st_size`. -/
  descriptorSize : Nat
  /-- The `References.File` entries of the parsed descriptor. -/
  refs : List Entry
  /-- Outcome of the upload-intent `post_resource` and the following
  `get_resource`. -/
  postOk : Except String Unit
  /-- Outcome of the descriptor `put_resource`. -/
  putOk : Except String Unit
  /-- Number of `Files.File` entries reported by each poll. -/
  polls : Nat → Nat
  /-- Names of the transfer slots (`target_file.get('name')`) reported
  by the entity once the poll loop exits. -/
  slotNames : List String
  /-- Result of `upload_file` for a member file, by its `href`. -/
  uploadResult : String → Except String Nat

/-- Inner loop of the member-upload phase: one `source_file` matched
against every reported transfer slot (`for target_file in
entity.Files.File`), uploading on every name match (the source does not
`break` after a match).  Returns the bytes uploaded plus the performed
uploads, the error being accompanied by the uploads already made. -/
def slotUploads (upl : String → Except String Nat) (src : Entry) :
    List String → (Except String Nat) × List (String × Nat)
  | [] => (.ok 0, [])
  | slot :: rest =>
    if src.href == slot then
      match upl src.href with
      | .error e => (.error e, [])
      | .ok n =>
        match slotUploads upl src rest with
        | (.error e, ups) => (.error e, (src.href, n) :: ups)
        | (.ok s, ups) => (.ok (n + s), (src.href, n) :: ups)
    else slotUploads upl src rest

/-- Outer loop of the member-upload phase (`for source_file in files`). -/
def memberUploads (upl : String → Except String Nat)
    (slotNames : List String) :
    List Entry → (Except String Nat) × List (String × Nat)
  | [] => (.ok 0, [])
  | src :: rest =>
    match slotUploads upl src slotNames with
    | (.error e, ups) => (.error e, ups)
    | (.ok n, ups) =>
      match memberUploads upl slotNames rest with
      | (.error e, ups2) => (.error e, ups ++ ups2)
      | (.ok s, ups2) => (.ok (n + s), ups ++ ups2)

/-- The `try` block of `Org.upload_ovf` (everything before the
`shutil.rmtree` at its end): extract the archive, look for a `.ovf`
descriptor — if none is found the block is skipped and `total_bytes`
stays `0` — otherwise add the descriptor size, post the upload intent,
put the descriptor, poll for transfer slots, and upload every member
matched by slot name.  Returns `none` when the poll loop diverges,
otherwise the block's outcome together with the member uploads
performed. -/
def tryBody (env : OvfEnv) (fuel : Nat) :
    Option ((Except String Nat) × List (String × Nat)) :=
  match env.extractOk with
  | .error e => some (.error e, [])
  | .ok _ =>
    match findOvf env.archiveFiles with
    | none => some (.ok 0, [])
    | some _ =>
      match env.postOk with
      | .error e => some (.error e, [])
      | .ok _ =>
        match env.putOk with
        | .error e => some (.error e, [])
        | .ok _ =>
          match pollLoop env.polls fuel 0 with
          | none => none
          | some _ =>
            match memberUploads env.uploadResult env.slotNames env.refs with
            | (.error e, ups) => some (.error e, ups)
            | (.ok s, ups) => some (.ok (env.descriptorSize + s), ups)

/-- Observable outcome of `Org.upload_ovf`. -/
structure OvfOut where
  result : Except String Nat
  workspaceRemoved : Bool
  uploads : List (String × Nat)

/-- `Org.upload_ovf`: run the `try` block; on success remove the temp
dir and return `total_bytes`; on an exception remove the temp dir and
re-raise the original exception (`except Exception as e: ...
shutil.rmtree(tempdir); raise e`).  `none` models the unbounded poll
loop never exiting, in which case the call never returns. -/
def upload_ovf (env : OvfEnv) (fuel : Nat) : Option OvfOut :=
  match tryBody env fuel with
  | none => none
  | some (res, ups) =>
    some { result := res, workspaceRemoved := true, uploads := ups }

/-- `Org.upload_ovf` never returns on this environment, whatever fuel
the poll loop is given. -/
def uploadOvfDiverges (env : OvfEnv) : Prop :=
  ∀ fuel, upload_ovf env fuel = none

theorem uploadLoop_spec (S C : Nat) (reads : Nat → Nat)
    (hr : ReadsFaithful S C reads) :
    ∀ fuel t frags cbs, t ≤ S → S - t < fuel →
      ∃ fr tl, uploadLoop S C reads fuel t frags cbs
          = some (frags ++ fr, cbs ++ tl, S)
        ∧ fr.length = tl.length
        ∧ List.Chain' (· < ·) (t :: tl)
        ∧ (t < S → tl.getLast? = some S)
        ∧ (t = S → tl = []) := by
  intro fuel
  induction fuel with
  | zero => intro t frags cbs _ hf; omega
  | succ fuel ih =>
    intro t frags cbs ht hf
    by_cases hlt : t < S
    · obtain ⟨h1, h2⟩ := hr t hlt
      have hc : reads t ≤ C := le_trans h2 (Nat.min_le_left _ _)
      have hrem : reads t ≤ S - t := le_trans h2 (Nat.min_le_right _ _)
      have ht' : t + reads t ≤ S := by omega
      have hf' : S - (t + reads t) < fuel := by omega
      obtain ⟨fr, tl, heq, hlen, hch, hlast, hnil⟩ :=
        ih (t + reads t) (frags ++ [rangeStr t (reads t) S])
          (cbs ++ [t + reads t]) ht' hf'
      refine ⟨rangeStr t (reads t) S :: fr, (t + reads t) :: tl, ?_, ?_, ?_, ?_, ?_⟩
      · simp only [uploadLoop, if_pos hlt, if_pos hc]
        rw [heq]
        simp [List.append_assoc]
      · simp [hlen]
      · rw [List.chain'_cons]
        exact ⟨by omega, hch⟩
      · intro _
        rcases tl with _ | ⟨x, xs⟩
        · have hts : t + reads t = S := by
            by_contra hne
            have hlt2 : t + reads t < S := by omega
            have := hlast hlt2
            simp at this
          simp [hts]
        · rw [List.getLast?_cons_cons]
          by_cases hend : t + reads t < S
          · exact hlast hend
          · have : t + reads t = S := by omega
            have := hnil this
            simp at this
      · intro hts; omega
    · have hts : t = S := by omega
      refine ⟨[], [], ?_, rfl, ?_, ?_, fun _ => rfl⟩
      · simp only [uploadLoop, if_neg hlt]
        simp [hts]
      · simp
      · intro h; omega

theorem pollLoop_const_one : ∀ fuel i, pollLoop (fun _ => 1) fuel i = none := by
  intro fuel
  induction fuel with
  | zero => intro i; rfl
  | succ fuel ih => intro i; simpa [pollLoop] using ih (i + 1)

theorem pollLoop_some_iff (polls : Nat → Nat) :
    ∀ fuel i, (∃ j, pollLoop polls fuel i = some j)
      ↔ ∃ k, i ≤ k ∧ k < i + fuel ∧ 1 < polls k := by
  intro fuel
  induction fuel with
  | zero =>
    intro i
    constructor
    · rintro ⟨j, hj⟩; simp [pollLoop] at hj
    · rintro ⟨k, h1, h2, _⟩; omega
  | succ fuel ih =>
    intro i
    by_cases hp : 1 < polls i
    · constructor
      · intro _; exact ⟨i, le_refl i, by omega, hp⟩
      · intro _; exact ⟨i, by simp [pollLoop, hp]⟩
    · have heq : pollLoop polls (fuel + 1) i = pollLoop polls fuel (i + 1) := by
        simp [pollLoop, hp]
      rw [heq, ih (i + 1)]
      constructor
      · rintro ⟨k, h1, h2, h3⟩
        exact ⟨k, by omega, by omega, h3⟩
      · rintro ⟨k, h1, h2, h3⟩
        refine ⟨k, ?_, by omega, h3⟩
        rcases Nat.eq_or_lt_of_le h1 with h | h
        · subst h; exact absurd h3 hp
        · omega

theorem tryBody_poll_none (env : OvfEnv) (fuel : Nat) (ovf : String)
    (hx : env.extractOk = .ok ()) (hovf : findOvf env.archiveFiles = some ovf)
    (hpost : env.postOk = .ok ()) (hput : env.putOk = .ok ())
    (hp : pollLoop env.polls fuel 0 = none) :
    upload_ovf env fuel = none := by
  simp [upload_ovf, tryBody, hx, hovf, hpost, hput, hp]

/-- Claim C1: the claim asserts that each submitted range header is
`bytes <offset>-<offset+len-1>/<S>`.  The code instead formats the end
of the range as `len(my_bytes) - 1`, so for a file of size 3 uploaded in
chunks of 2 the two submissions (the claimed `⌈3/2⌉ = 2` of them do
happen) carry the headers `bytes 0-1/3` and `bytes 2-0/3`, while the
claimed format requires `bytes 2-2/3` for the second one: the ranges do
not partition `[0,3)`. -/
theorem c1_range_header_bug :
    upload_file 3 2 (fileRead 3 2) 4
      = some (["bytes 0-1/3", "bytes 2-0/3"], [2, 3], 3)
    ∧ (["bytes 0-1/3", "bytes 2-0/3"] : List String).length = (3 + 2 - 1) / 2
    ∧ "bytes 2-0/3" ≠ "bytes 2-2/3" := by
  refine ⟨rfl, rfl, by decide⟩

/-- Claim C2: when every read of a non-exhausted file returns at least
one byte (and no read overruns the request or the file), `upload_file`
returns `transferred = S`, one callback fires per submitted fragment,
the callback values are strictly increasing, and the last one is `S`. -/
theorem c2_total_and_progress (S C : Nat) (reads : Nat → Nat)
    (hr : ReadsFaithful S C reads) :
    ∃ frags cbs, upload_file S C reads (S + 1) = some (frags, cbs, S)
      ∧ frags.length = cbs.length
      ∧ List.Chain' (· < ·) cbs
      ∧ (0 < S → cbs.getLast? = some S)
      ∧ (S = 0 → cbs = []) := by
  obtain ⟨fr, tl, heq, hlen, hch, hlast, hnil⟩ :=
    uploadLoop_spec S C reads hr (S + 1) 0 [] [] (Nat.zero_le S) (by omega)
  exact ⟨fr, tl, by simpa [upload_file] using heq, hlen, hch.tail,
    fun h => hlast h, fun h => hnil h.symm⟩

theorem c2_witness :
    ∃ frags cbs, upload_file 3 2 (fileRead 3 2) 4 = some (frags, cbs, 3)
      ∧ frags.length = cbs.length
      ∧ List.Chain' (· < ·) cbs
      ∧ (0 < 3 → cbs.getLast? = some 3)
      ∧ (3 = 0 → cbs = []) :=
  c2_total_and_progress 3 2 (fileRead 3 2) (by unfold ReadsFaithful; decide)

/-- Claim C3: the claim asserts the appliance download fails with the
`download incomplete` error iff the downloaded byte count differs from
the entry's declared size.  In the source `num_bytes` is an `int` while
`source_file['size']` is the XML attribute string, and Python's `!=`
across those types is always `True`: even when the entry declares size
`"10"` and exactly `10` bytes are downloaded, the operation fails,
naming the entry. -/
theorem c3_size_check_always_fires :
    processEntries (fun _ => (10 : Int))
        [{ href := "disk0.vmdk", name := "disk0", size := "10" }]
      = .error "download incomplete for file disk0.vmdk"
    ∧ toString (10 : Nat) = "10" :=
  ⟨rfl, rfl⟩

/-- Claim C4, counterexample: an extracted archive containing no `.ovf`
file does not make `upload_ovf` fail; the body is skipped and the call
returns `0` as a success value. -/
theorem c4_counterexample :
    upload_ovf
      { archiveFiles := ["disk0.vmdk", "readme.txt"], extractOk := .ok (),
        descriptorSize := 0, refs := [], postOk := .ok (), putOk := .ok (),
        polls := fun _ => 2, slotNames := [], uploadResult := fun _ => .ok 0 } 1
      = some { result := .ok 0, workspaceRemoved := true, uploads := [] } := rfl

/-- Claim C4, amended: when extraction succeeds and no extracted file
has the `.ovf` extension, `upload_ovf` returns success with total `0`
and performs no upload at all (the temp dir is still removed); no
`ManifestNotFound`-style error is raised. -/
theorem c4_amended (env : OvfEnv) (fuel : Nat)
    (hx : env.extractOk = .ok ()) (hno : findOvf env.archiveFiles = none) :
    upload_ovf env fuel
      = some { result := .ok 0, workspaceRemoved := true, uploads := [] } := by
  simp [upload_ovf, tryBody, hx, hno]

theorem c4_amended_witness :
    upload_ovf
      { archiveFiles := ["disk0.vmdk"], extractOk := .ok (), descriptorSize := 0,
        refs := [], postOk := .ok (), putOk := .ok (), polls := fun _ => 2,
        slotNames := [], uploadResult := fun _ => .ok 0 } 0
      = some { result := .ok 0, workspaceRemoved := true, uploads := [] } :=
  c4_amended _ 0 rfl rfl

/-- Claim C5: whenever `upload_ovf` returns at all, the temp workspace
has been removed, and the returned value is exactly the `try` block's
outcome — a success total, or the original error re-raised after the
cleanup, with no partial byte count attached. -/
theorem c5_cleanup_and_propagation (env : OvfEnv) (fuel : Nat) (out : OvfOut)
    (h : upload_ovf env fuel = some out) :
    out.workspaceRemoved = true
    ∧ tryBody env fuel = some (out.result, out.uploads) := by
  unfold upload_ovf at h
  rcases htb : tryBody env fuel with _ | ⟨res, ups⟩ <;> rw [htb] at h
  · cases h
  · injection h with h2
    subst h2
    exact ⟨rfl, rfl⟩

theorem c5_witness :
    ({ result := .error "tar failed", workspaceRemoved := true,
       uploads := [] } : OvfOut).workspaceRemoved = true
    ∧ tryBody
        { archiveFiles := [], extractOk := .error "tar failed",
          descriptorSize := 0, refs := [], postOk := .ok (), putOk := .ok (),
          polls := fun _ => 1, slotNames := [], uploadResult := fun _ => .ok 0 } 0
      = some (({ result := .error "tar failed", workspaceRemoved := true,
                 uploads := [] } : OvfOut).result,
              ({ result := .error "tar failed", workspaceRemoved := true,
                 uploads := [] } : OvfOut).uploads) :=
  c5_cleanup_and_propagation _ 0 _ rfl

/-- Claim C6, counterexample: on a server that never reports more than
one `Files.File` entry, `upload_ovf` never returns, whatever bound is
put on the number of polls: the slot-poll loop is unbounded and no
`NotFound`-style error is ever raised. -/
theorem c6_counterexample :
    uploadOvfDiverges
      { archiveFiles := ["a.ovf"], extractOk := .ok (), descriptorSize := 7,
        refs := [{ href := "disk0.vmdk", name := "disk0", size := "10" }],
        postOk := .ok (), putOk := .ok (), polls := fun _ => 1,
        slotNames := [], uploadResult := fun _ => .ok 10 } := by
  intro fuel
  exact tryBody_poll_none _ fuel "a.ovf" rfl rfl rfl rfl
    (pollLoop_const_one fuel 0)

/-- Claim C6, amended: the slot-poll loop of `upload_ovf` exits within
`fuel` polls iff some poll among the first `fuel` reports more than one
transfer-slot entry; with no such poll it keeps polling for every bound,
i.e. it polls indefinitely instead of failing before a deadline. -/
theorem c6_amended (polls : Nat → Nat) (fuel : Nat) :
    (∃ j, pollLoop polls fuel 0 = some j) ↔ ∃ k, k < fuel ∧ 1 < polls k := by
  simpa using pollLoop_some_iff polls fuel 0

/-- Claim C7: the upload loop of `upload_file` terminates once the
offset reaches the file size; with every read of a non-exhausted file
returning at least one byte, `S + 1` iterations always suffice and the
final `transferred` equals `S`. -/
theorem c7_loop_terminates (S C : Nat) (reads : Nat → Nat)
    (hr : ReadsFaithful S C reads) :
    ∃ out, upload_file S C reads (S + 1) = some out ∧ out.2.2 = S := by
  obtain ⟨fr, tl, heq, -, -, -, -⟩ :=
    uploadLoop_spec S C reads hr (S + 1) 0 [] [] (Nat.zero_le S) (by omega)
  exact ⟨(fr, tl, S), by simpa [upload_file] using heq, rfl⟩

theorem c7_witness :
    ∃ out, upload_file 5 2 (fileRead 5 2) 6 = some out ∧ out.2.2 = 5 :=
  c7_loop_terminates 5 2 (fileRead 5 2) (by unfold ReadsFaithful; decide)

/-- Claim C8: with a descriptor present, a manifest listing zero member
files, the client calls succeeding and some poll reporting the transfer
slots, `upload_ovf` succeeds, returns the descriptor size alone, and
performs no member upload. -/
theorem c8_empty_manifest (env : OvfEnv) (fuel : Nat) (ovf : String)
    (hx : env.extractOk = .ok ()) (hovf : findOvf env.archiveFiles = some ovf)
    (hpost : env.postOk = .ok ()) (hput : env.putOk = .ok ())
    (hrefs : env.refs = []) (hpoll : ∃ k, k < fuel ∧ 1 < env.polls k) :
    upload_ovf env fuel
      = some { result := .ok env.descriptorSize, workspaceRemoved := true,
               uploads := [] } := by
  obtain ⟨j, hj⟩ := (pollLoop_some_iff env.polls fuel 0).mpr
    (by obtain ⟨k, h1, h2⟩ := hpoll; exact ⟨k, by omega, by omega, h2⟩)
  simp [upload_ovf, tryBody, hx, hovf, hpost, hput, hj, hrefs, memberUploads]

theorem c8_witness :
    upload_ovf
      { archiveFiles := ["vm.ovf"], extractOk := .ok (), descriptorSize := 123,
        refs := [], postOk := .ok (), putOk := .ok (), polls := fun _ => 2,
        slotNames := ["vm.ovf"], uploadResult := fun _ => .ok 0 } 1
      = some { result := .ok 123, workspaceRemoved := true, uploads := [] } :=
  c8_empty_manifest _ 1 "vm.ovf" rfl rfl rfl rfl rfl ⟨0, by omega, by decide⟩

/-- Claim C9, counterexample: a successful appliance download (empty
manifest, archive of 777 bytes) returns with `workspaceRemoved = false`:
the `shutil.rmtree(tempdir)` of the success path is commented out in the
source, so the temp workspace is not removed before the call returns. -/
theorem c9_counterexample :
    appliance_branch [] (fun _ => 0) 777
      = .ok { bytesWritten := 777, workspaceRemoved := false,
              cwdRestored := true, tarMembers := ["descriptor.ovf"] } := rfl

/-- Claim C9, amended: on every normal completion of the appliance
branch the temp workspace is retained (its removal is commented out);
only the working directory is restored before the call returns. -/
theorem c9_amended (entries : List Entry) (download : String → Int)
    (archiveStat : Nat) (out : ApplOut)
    (h : appliance_branch entries download archiveStat = .ok out) :
    out.workspaceRemoved = false ∧ out.cwdRestored = true := by
  unfold appliance_branch at h
  cases hpe : processEntries download entries with
  | error msg => rw [hpe] at h; cases h
  | ok fs =>
    rw [hpe] at h
    injection h with h2
    subst h2
    exact ⟨rfl, rfl⟩

theorem c9_witness :
    ({ bytesWritten := 777, workspaceRemoved := false, cwdRestored := true,
       tarMembers := ["descriptor.ovf"] } : ApplOut).workspaceRemoved = false
    ∧ ({ bytesWritten := 777, workspaceRemoved := false, cwdRestored := true,
         tarMembers := ["descriptor.ovf"] } : ApplOut).cwdRestored = true :=
  c9_amended [] (fun _ => 0) 777 _ rfl

/-- Claim C10: whatever the appliance branch downloads, the byte count
it returns on success is `os.stat` of the produced archive at the output
path — the `archiveStat` input of the embedding — not the sum of the
bytes downloaded for the manifest members. -/
theorem c10_returns_archive_stat (entries : List Entry)
    (download : String → Int) (archiveStat : Nat) (out : ApplOut)
    (h : appliance_branch entries download archiveStat = .ok out) :
    out.bytesWritten = archiveStat := by
  unfold appliance_branch at h
  cases hpe : processEntries download entries with
  | error msg => rw [hpe] at h; cases h
  | ok fs =>
    rw [hpe] at h
    injection h with h2
    subst h2
    rfl

theorem c10_witness :
    ({ bytesWritten := 500, workspaceRemoved := false, cwdRestored := true,
       tarMembers := ["descriptor.ovf"] } : ApplOut).bytesWritten = 500 :=
  c10_returns_archive_stat [] (fun _ => 0) 500 _ rfl
